import Mathlib

/-!
# KanMind backend: shallow embedding of the board/task/comment core

This file embeds the authorization and consistency core of the KanMind
backend (Django + DRF) and proves the specification claims about it.

Entities (`board/models.py`, `tasks/models.py`) become Lean structures;
users are represented by their ids (the only attribute the core logic
inspects).  The persistence layer becomes an explicit `Store` record.
Serializer validation and view dispatch become total Lean functions that
return the HTTP status code together with the resulting store, mirroring
the Python control flow branch by branch.  Python exceptions that DRF
turns into structured responses (serializers.ValidationError) are modelled
by `PyErr.validation`; exceptions that escape to a 500 (AttributeError,
Model.DoesNotExist outside a try block) by `PyErr.crash`.

Python `set(...)` values are modelled with `List.dedup`; Django
many-to-many `add` (which ignores duplicates) by `addMembers`.
-/

namespace KanMind

/-- A board row (`board/models.py`, class Board).  `memberIds` is the
many-to-many `members` relation, kept as a duplicate-free list. -/
structure Board where
  id : Nat
  title : String
  ownerId : Nat
  memberIds : List Nat
deriving Repr, DecidableEq

/-- A task row (`tasks/models.py`, class Task).  `status` and `priority`
are the raw stored strings; `assigneeId`/`reviewerId` are the nullable
foreign keys. -/
structure Task where
  id : Nat
  boardId : Nat
  title : String
  description : String
  status : String
  priority : String
  assigneeId : Option Nat
  reviewerId : Option Nat
  dueDate : Option String
deriving Repr, DecidableEq

/-- A comment row (`tasks/models.py`, class Comment). -/
structure Comment where
  id : Nat
  taskId : Nat
  authorId : Nat
  content : String
deriving Repr, DecidableEq

/-- The persistence layer: existing user ids plus the three tables. -/
structure Store where
  users : List Nat
  boards : List Board
  tasks : List Task
  comments : List Comment
deriving Repr, DecidableEq

/-- `Board.objects.get(pk=i)` as a partial lookup. -/
def Store.findBoard (s : Store) (i : Nat) : Option Board :=
  s.boards.find? (fun b => b.id == i)

/-- `Task.objects.get(pk=i)` as a partial lookup. -/
def Store.findTask (s : Store) (i : Nat) : Option Task :=
  s.tasks.find? (fun t => t.id == i)

/-- `Comment.objects.get(id=cid, task=task)` as a partial lookup. -/
def Store.findComment (s : Store) (cid tid : Nat) : Option Comment :=
  s.comments.find? (fun c => c.id == cid && c.taskId == tid)

/-- `User.objects.filter(id=i).exists()` / `User.objects.get(id=i)` success. -/
def Store.userExists (s : Store) (i : Nat) : Bool :=
  s.users.contains i

/-- The recurring guard
`not (board.owner != user and not board.members.filter(id=user.id).exists())`:
the user is the owner or in the member set. -/
def isBoardMember (b : Board) (u : Nat) : Bool :=
  b.ownerId == u || b.memberIds.contains u

/-- Django many-to-many `add`: appends the ids not already present. -/
def addMembers (cur new : List Nat) : List Nat :=
  cur ++ new.filter (fun i => !(cur.contains i))

/-- Structured payloads of the `serializers.ValidationError`s raised by the
board and task serializers. -/
inductive ApiErr where
  /-- `"Invalid user IDs: ..."` with the unresolved ids. -/
  | invalidUserIds (ids : List Nat)
  /-- `"Board does not exist"` / unresolvable board pk. -/
  | boardNotExist
  /-- `"You must be a member of the board to create a task"`. -/
  | notBoardMemberCreate
  /-- `"Invalid status. Must be one of: ..."`. -/
  | invalidStatus
  /-- `"Invalid priority. Must be one of: ..."`. -/
  | invalidPriority
  /-- `"Assignee user does not exist"`. -/
  | assigneeNotExist
  /-- `"Reviewer user does not exist"`. -/
  | reviewerNotExist
  /-- The field-keyed error saying the assignee must be a board member. -/
  | assigneeNotMember
  /-- The field-keyed error saying the reviewer must be a board member. -/
  | reviewerNotMember
deriving Repr, DecidableEq

/-- Outcome of running Python serializer code: a DRF `ValidationError`
(recovered into a 400 response) or an uncaught exception (a 500). -/
inductive PyErr where
  | validation (e : ApiErr)
  | crash
deriving Repr, DecidableEq

/-- Lift a validation outcome into the two-level error type. -/
def liftV : Except ApiErr α → Except PyErr α
  | .error e => .error (.validation e)
  | .ok a => .ok a

/-! ## Board serializer (`board/api/serializers.py`) -/

/-- `BoardSerializer.validate_members`: every id must resolve to an
existing user; the count of distinct resolved users is compared with the
length of the submitted list, and on mismatch the set difference is
reported. -/
def validate_members (s : Store) (value : List Nat) : Except ApiErr (List Nat) :=
  if value.isEmpty then .ok value
  else
    let validUsers := value.dedup.filter (fun i => s.userExists i)
    if validUsers.length ≠ value.length then
      .error (.invalidUserIds (value.dedup.filter (fun i => !(s.userExists i))))
    else .ok value

/-- `BoardSerializer.create`: persists the board, adds the owner to the
member set, then (re-)checks the submitted member ids and adds the
resolved users.  The internal re-check raises after the board row is
already persisted, which the returned store reflects. -/
def boardSerializer_create (s : Store) (newId : Nat) (title : String)
    (member_ids : List Nat) (owner : Nat) : Store × Except ApiErr Board :=
  let board0 : Board := { id := newId, title := title, ownerId := owner, memberIds := [owner] }
  if member_ids.isEmpty then
    ({ s with boards := s.boards ++ [board0] }, .ok board0)
  else
    let validUsers := member_ids.dedup.filter (fun i => s.userExists i)
    if validUsers.length ≠ member_ids.length then
      ({ s with boards := s.boards ++ [board0] },
       .error (.invalidUserIds (member_ids.dedup.filter (fun i => !(s.userExists i)))))
    else
      let board1 := { board0 with memberIds := addMembers board0.memberIds validUsers }
      ({ s with boards := s.boards ++ [board1] }, .ok board1)

/-- `BoardSerializer.update`: overwrites the title when supplied; when the
`members` key is present, clears the member set, re-adds the owner, and
adds the users resolved from the submitted ids. -/
def boardSerializer_update (s : Store) (inst : Board)
    (title : Option String) (members : Option (List Nat)) : Board :=
  let inst1 := { inst with title := title.getD inst.title }
  match members with
  | none => inst1
  | some member_ids =>
    let validUsers := member_ids.dedup.filter (fun i => s.userExists i)
    { inst1 with memberIds := addMembers (addMembers [] [inst1.ownerId]) validUsers }

/-- Replace a board row in the store (Django saves by primary key). -/
def Store.setBoard (s : Store) (b : Board) : Store :=
  { s with boards := s.boards.map (fun x => if x.id == b.id then b else x) }

/-! ## Board views (`board/api/views.py`) -/

/-- Result of a board create / patch request. -/
structure BoardResp where
  status : Nat
  board : Option Board
  err : Option ApiErr
  store : Store
deriving Repr, DecidableEq

/-- `BoardViewSet.create` (POST /api/boards/): `is_valid` runs
`validate_members` when the `members` key is present; on success the
serializer is saved with `owner=request.user`.  `newId` is the primary
key the database assigns. -/
def boardViewSet_create (s : Store) (newId actor : Nat) (title : String)
    (members : Option (List Nat)) : BoardResp :=
  let fieldCheck : Except ApiErr Unit :=
    match members with
    | none => .ok ()
    | some ids => (validate_members s ids).map (fun _ => ())
  match fieldCheck with
  | .error e => { status := 400, board := none, err := some e, store := s }
  | .ok _ =>
    let member_ids := (members.getD [])
    match boardSerializer_create s newId title member_ids actor with
    | (s2, .ok b) => { status := 201, board := some b, err := none, store := s2 }
    | (s2, .error e) => { status := 400, board := none, err := some e, store := s2 }

/-- `BoardViewSet.retrieve` (GET /api/boards/{id}/): 404 when the board
does not resolve, 403 when the actor is neither owner nor member, else
200.  Returns the HTTP status. -/
def boardViewSet_retrieve (s : Store) (actor boardId : Nat) : Nat :=
  match s.findBoard boardId with
  | none => 404
  | some board => if !(isBoardMember board actor) then 403 else 200

/-- `BoardViewSet.partial_update` (PATCH /api/boards/{id}/): 404 when the
board does not resolve; 403 when the actor is neither owner nor member;
400 when `validate_members` rejects the payload; else the serializer
update is saved and returned with 200. -/
def boardViewSet_patch (s : Store) (actor boardId : Nat)
    (title : Option String) (members : Option (List Nat)) : BoardResp :=
  match s.findBoard boardId with
  | none => { status := 404, board := none, err := none, store := s }
  | some board =>
    if !(isBoardMember board actor) then
      { status := 403, board := none, err := none, store := s }
    else
      let fieldCheck : Except ApiErr Unit :=
        match members with
        | none => .ok ()
        | some ids => (validate_members s ids).map (fun _ => ())
      match fieldCheck with
      | .error e => { status := 400, board := none, err := some e, store := s }
      | .ok _ =>
        let b2 := boardSerializer_update s board title members
        { status := 200, board := some b2, err := none, store := s.setBoard b2 }

/-- Cascade deletion of a board, from the model declarations:
`Task.board` has `on_delete=CASCADE` and `Comment.task` has
`on_delete=CASCADE`, so deleting a board deletes its tasks and their
comments. -/
def Store.deleteBoardCascade (s : Store) (bid : Nat) : Store :=
  let deadTasks := s.tasks.filter (fun t => t.boardId == bid)
  { s with
    boards := s.boards.filter (fun b => b.id ≠ bid),
    tasks := s.tasks.filter (fun t => t.boardId ≠ bid),
    comments := s.comments.filter (fun c => !(deadTasks.any (fun t => t.id == c.taskId))) }

/-- Result of a delete-style request: status code and resulting store. -/
structure DeleteResp where
  status : Nat
  store : Store
deriving Repr, DecidableEq

/-- `BoardViewSet.destroy` (DELETE /api/boards/{id}/): 404 when the board
does not resolve; 403 when the actor is neither owner nor member; 403
again when the actor is a member but not the owner; else cascade delete
and 204. -/
def boardViewSet_destroy (s : Store) (actor boardId : Nat) : DeleteResp :=
  match s.findBoard boardId with
  | none => { status := 404, store := s }
  | some board =>
    if !(isBoardMember board actor) then { status := 403, store := s }
    else if board.ownerId ≠ actor then { status := 403, store := s }
    else { status := 204, store := s.deleteBoardCascade boardId }

/-! ## Task serializer (`tasks/api/serializers.py`) -/

/-- `TaskSerializer.validate_status`: the fixed enumeration. -/
def valid_statuses : List String := ["to-do", "in-progress", "review", "done"]

/-- `TaskSerializer.validate_priority`: the fixed enumeration. -/
def valid_priorities : List String := ["low", "medium", "high"]

/-- `TaskSerializer.validate_status`. -/
def validate_status (value : String) : Except ApiErr String :=
  if valid_statuses.contains value then .ok value else .error .invalidStatus

/-- `TaskSerializer.validate_priority`. -/
def validate_priority (value : String) : Except ApiErr String :=
  if valid_priorities.contains value then .ok value else .error .invalidPriority

/-- `TaskSerializer.validate_assignee_id`: `None` passes; otherwise the id
must resolve via `User.objects.get`. -/
def validate_assignee_id (s : Store) (value : Option Nat) : Except ApiErr (Option Nat) :=
  match value with
  | none => .ok none
  | some v => if s.userExists v then .ok (some v) else .error .assigneeNotExist

/-- `TaskSerializer.validate_reviewer_id`: same shape as the assignee
check. -/
def validate_reviewer_id (s : Store) (value : Option Nat) : Except ApiErr (Option Nat) :=
  match value with
  | none => .ok none
  | some v => if s.userExists v then .ok (some v) else .error .reviewerNotExist

/-- Resolution of the writable `board` primary-key field to a row; an
unresolvable pk is a field-level validation error (400). -/
def resolve_board (s : Store) (pk : Nat) : Except ApiErr Board :=
  match s.findBoard pk with
  | none => .error .boardNotExist
  | some b => .ok b

/-- `TaskSerializer.validate_board`: re-fetches the board and requires the
requesting user to be its owner or a member. -/
def validate_board (s : Store) (actor : Nat) (value : Board) : Except ApiErr Board :=
  match s.findBoard value.id with
  | none => .error .boardNotExist
  | some board =>
    if !(isBoardMember board actor) then .error .notBoardMemberCreate
    else .ok value

/-- Python truthiness of the optional assignee/reviewer attribute: both
`None` and `0` are falsy. -/
def truthy : Option Nat → Bool
  | none => false
  | some v => v ≠ 0

/-- `TaskSerializer.validate` (cross-field): for a truthy assignee or
reviewer id it fetches the user and tests board membership via
`board.owner` / `board.members`.  `board` is the board attribute: when
the request did not supply the board field (every ordinary partial
update) it is `None` and the attribute access `board.owner` raises an
uncaught `AttributeError`, modelled as `PyErr.crash`. -/
def taskSerializer_validate (s : Store) (board : Option Board)
    (assignee_id reviewer_id : Option Nat) : Except PyErr Unit :=
  let step1 : Except PyErr Unit :=
    if truthy assignee_id then
      if !(s.userExists (assignee_id.getD 0)) then .error .crash
      else
        match board with
        | none => .error .crash
        | some b =>
          if !(isBoardMember b (assignee_id.getD 0)) then
            .error (.validation .assigneeNotMember)
          else .ok ()
    else .ok ()
  match step1 with
  | .error e => .error e
  | .ok _ =>
    if truthy reviewer_id then
      if !(s.userExists (reviewer_id.getD 0)) then .error .crash
      else
        match board with
        | none => .error .crash
        | some b =>
          if !(isBoardMember b (reviewer_id.getD 0)) then
            .error (.validation .reviewerNotMember)
          else .ok ()
    else .ok ()

/-- `to_representation`: rewrites the internal `"reviewing"` token to
`"review"` on the wire; every other status string passes through. -/
def to_representation_status (status : String) : String :=
  if status == "reviewing" then "review" else status

/-- `TaskPatchResponseSerializer.serialize` exposes `task.status` raw. -/
def taskPatchResponse_status (t : Task) : String := t.status

/-! ## Task create (`tasks/api/views.py` TaskViewSet.create) -/

/-- Request body of POST /api/tasks/.  `board` is a required field; for
`assignee_id`/`reviewer_id` an omitted key and an explicit `null` both
reach `TaskSerializer.create` as `None`, so a single `Option Nat`
suffices here. -/
structure TaskCreateData where
  board : Nat
  title : String
  description : String
  status : Option String
  priority : Option String
  assignee_id : Option Nat
  reviewer_id : Option Nat
  due_date : Option String
deriving Repr, DecidableEq

/-- Result of a task create / patch request. -/
structure TaskResp where
  status : Nat
  task : Option Task
  err : Option PyErr
  store : Store
deriving Repr, DecidableEq

/-- `is_valid` for POST /api/tasks/: resolves the board pk, runs the
field validators (`validate_board`, `validate_status`,
`validate_priority`, `validate_assignee_id`, `validate_reviewer_id`) and
then the cross-field `validate`.  DRF collects field errors jointly; the
sequential first-error order here is observationally equal for the
single-fault requests the claims quantify over. -/
def taskCreate_is_valid (s : Store) (actor : Nat) (d : TaskCreateData) :
    Except PyErr Board :=
  match resolve_board s d.board with
  | .error e => .error (.validation e)
  | .ok board =>
    match validate_board s actor board with
    | .error e => .error (.validation e)
    | .ok _ =>
      match (match d.status with | none => Except.ok "" | some v => validate_status v) with
      | .error e => .error (.validation e)
      | .ok _ =>
        match (match d.priority with | none => Except.ok "" | some v => validate_priority v) with
        | .error e => .error (.validation e)
        | .ok _ =>
          match validate_assignee_id s d.assignee_id with
          | .error e => .error (.validation e)
          | .ok _ =>
            match validate_reviewer_id s d.reviewer_id with
            | .error e => .error (.validation e)
            | .ok _ =>
              match taskSerializer_validate s (some board) d.assignee_id d.reviewer_id with
              | .error e => .error e
              | .ok _ => .ok board

/-- `TaskViewSet.create` + `TaskSerializer.create`: on `is_valid` failure
a 400; otherwise the task row is created (model defaults `to-do` /
`medium` for omitted status/priority) and the truthy assignee/reviewer
ids are attached.  `newId` is the primary key the database assigns. -/
def taskViewSet_create (s : Store) (newId actor : Nat) (d : TaskCreateData) : TaskResp :=
  match taskCreate_is_valid s actor d with
  | .error (.validation e) =>
    { status := 400, task := none, err := some (.validation e), store := s }
  | .error .crash => { status := 500, task := none, err := some .crash, store := s }
  | .ok board =>
    let task0 : Task :=
      { id := newId, boardId := board.id, title := d.title,
        description := d.description,
        status := d.status.getD "to-do", priority := d.priority.getD "medium",
        assigneeId := none, reviewerId := none, dueDate := d.due_date }
    let task1 := if truthy d.assignee_id then { task0 with assigneeId := d.assignee_id } else task0
    let task2 := if truthy d.reviewer_id then { task1 with reviewerId := d.reviewer_id } else task1
    { status := 201, task := some task2, err := none,
      store := { s with tasks := s.tasks ++ [task2] } }

/-! ## Task partial update (`tasks/api/views.py` TaskViewSet.partial update) -/

/-- Request body of PATCH /api/tasks/{id}/.  For `assignee_id` and
`reviewer_id` the three-way wire distinction is kept: `none` = key
omitted, `some none` = explicit `null`, `some (some v)` = integer `v`. -/
structure TaskPatchData where
  title : Option String
  description : Option String
  status : Option String
  priority : Option String
  board : Option Nat
  assignee_id : Option (Option Nat)
  reviewer_id : Option (Option Nat)
  due_date : Option (Option String)
deriving Repr, DecidableEq

/-- `is_valid` for the partial update: only supplied fields are
validated; the cross-field `validate` receives the board attribute,
which is `None` whenever the request did not include the board field. -/
def taskPatch_is_valid (s : Store) (actor : Nat) (d : TaskPatchData) :
    Except PyErr Unit :=
  let boardStep : Except ApiErr (Option Board) :=
    match d.board with
    | none => .ok none
    | some pk =>
      match resolve_board s pk with
      | .error e => .error e
      | .ok b =>
        match validate_board s actor b with
        | .error e => .error e
        | .ok _ => .ok (some b)
  match boardStep with
  | .error e => .error (.validation e)
  | .ok boardOpt =>
    match (match d.status with | none => Except.ok "" | some v => validate_status v) with
    | .error e => .error (.validation e)
    | .ok _ =>
      match (match d.priority with | none => Except.ok "" | some v => validate_priority v) with
      | .error e => .error (.validation e)
      | .ok _ =>
        match (match d.assignee_id with
               | none => Except.ok none
               | some v => validate_assignee_id s v) with
        | .error e => .error (.validation e)
        | .ok _ =>
          match (match d.reviewer_id with
                 | none => Except.ok none
                 | some v => validate_reviewer_id s v) with
          | .error e => .error (.validation e)
          | .ok _ =>
            taskSerializer_validate s boardOpt d.assignee_id.join d.reviewer_id.join

/-- `TaskSerializer.update`: scalar fields fall back to the instance
value; popping the assignee key with default `None` collapses an omitted key
and an explicit `null` to `None` (left untouched), while `0` clears the
relation and any other id reassigns it.  (The source also compares
against the empty string, unreachable after IntegerField coercion.)  The
board field is never written: the board of a task is immutable here. -/
def taskSerializer_update (inst : Task) (d : TaskPatchData) : Task :=
  let i1 := { inst with
    title := d.title.getD inst.title,
    description := d.description.getD inst.description,
    status := d.status.getD inst.status,
    priority := d.priority.getD inst.priority,
    dueDate := match d.due_date with | none => inst.dueDate | some v => v }
  let i2 :=
    match d.assignee_id.join with
    | none => i1
    | some v => if v == 0 then { i1 with assigneeId := none } else { i1 with assigneeId := some v }
  match d.reviewer_id.join with
  | none => i2
  | some v => if v == 0 then { i2 with reviewerId := none } else { i2 with reviewerId := some v }

/-- Replace a task row in the store (Django saves by primary key). -/
def Store.setTask (s : Store) (t : Task) : Store :=
  { s with tasks := s.tasks.map (fun x => if x.id == t.id then t else x) }

/-- `TaskViewSet.partial update` (PATCH /api/tasks/{id}/): 404 when the
task does not resolve; 403 when the actor is neither owner nor member of
`task.board`; 400 on a validation error; 500 when `is_valid` raises an
uncaught exception; else the update is saved and returned with 200.
(A dangling `task.boardId` cannot occur under foreign-key integrity and
is mapped to a crash.) -/
def taskViewSet_patch (s : Store) (actor taskId : Nat) (d : TaskPatchData) : TaskResp :=
  match s.findTask taskId with
  | none => { status := 404, task := none, err := none, store := s }
  | some task =>
    match s.findBoard task.boardId with
    | none => { status := 500, task := none, err := some .crash, store := s }
    | some board =>
      if !(isBoardMember board actor) then
        { status := 403, task := none, err := none, store := s }
      else
        match taskPatch_is_valid s actor d with
        | .error (.validation e) =>
          { status := 400, task := none, err := some (.validation e), store := s }
        | .error .crash => { status := 500, task := none, err := some .crash, store := s }
        | .ok _ =>
          let t2 := taskSerializer_update task d
          { status := 200, task := some t2, err := none, store := s.setTask t2 }

/-- Default DRF retrieve for tasks: `get_object` draws from
`get_queryset`, which is filtered to boards the user owns or belongs to,
so both a missing task and a task on an inaccessible board give 404. -/
def taskViewSet_retrieve (s : Store) (actor taskId : Nat) : Nat :=
  match s.findTask taskId with
  | none => 404
  | some t =>
    match s.findBoard t.boardId with
    | none => 404
    | some b => if isBoardMember b actor then 200 else 404

/-! ## Comment endpoints (`tasks/api/views.py`) -/

/-- `TaskViewSet.comments`, GET branch: 404 when the task does not
resolve; 403 when the actor is neither owner nor member of the board of
the task; else the comments of the task with 200. -/
def taskViewSet_comments_get (s : Store) (actor taskId : Nat) :
    Nat × Option (List Comment) :=
  match s.findTask taskId with
  | none => (404, none)
  | some task =>
    match s.findBoard task.boardId with
    | none => (500, none)
    | some board =>
      if !(isBoardMember board actor) then (403, none)
      else (200, some (s.comments.filter (fun c => c.taskId == task.id)))

/-- `TaskViewSet.delete_comment` (DELETE /api/tasks/{id}/comments/{cid}/):
404 when the task does not resolve; 403 when the actor is neither owner
nor member of the board of the task; then 404 when the comment does not
resolve within the task; then 403 when the actor is not the author of
the comment; else the comment row is deleted with 204. -/
def taskViewSet_delete_comment (s : Store) (actor taskId commentId : Nat) : DeleteResp :=
  match s.findTask taskId with
  | none => { status := 404, store := s }
  | some task =>
    match s.findBoard task.boardId with
    | none => { status := 500, store := s }
    | some board =>
      if !(isBoardMember board actor) then { status := 403, store := s }
      else
        match s.findComment commentId task.id with
        | none => { status := 404, store := s }
        | some comment =>
          if comment.authorId ≠ actor then { status := 403, store := s }
          else
            { status := 204,
              store := { s with comments := s.comments.filter (fun c => c.id ≠ comment.id) } }

/-! ## Concrete sample data for witnesses and counterexamples -/

/-- Board used by the create/replace witness scenario. -/
def c1board0 : Board := { id := 10, title := "Roadmap", ownerId := 1, memberIds := [1, 2] }

/-- Store with users 1, 2, 3 and one board owned by user 1. -/
def c1store : Store := { users := [1, 2, 3], boards := [c1board0], tasks := [], comments := [] }

/-- The board the create endpoint produces for `members = [2, 3]`. -/
def c1created : Board := { id := 11, title := "Launch", ownerId := 1, memberIds := [1, 2, 3] }

/-- The board the member-replace endpoint produces for `members = [3]`. -/
def c1patched : Board := { id := 10, title := "Roadmap", ownerId := 1, memberIds := [1, 3] }

/-- Board whose only member is its owner, user 1. -/
def c2board : Board := { id := 10, title := "Solo", ownerId := 1, memberIds := [1] }

/-- A task on that board. -/
def c2task : Task :=
  { id := 20, boardId := 10, title := "T", description := "",
    status := "to-do", priority := "medium",
    assigneeId := none, reviewerId := none, dueDate := none }

/-- Store for the C2 scenario: user 2 exists but has no access to board
10; the task has no comments, so no comment id resolves. -/
def c2store : Store := { users := [1, 2], boards := [c2board], tasks := [c2task], comments := [] }

/-- Board with owner 1 and member 2. -/
def c3board : Board := { id := 10, title := "Shared", ownerId := 1, memberIds := [1, 2] }

/-- A task on that board with no assignee. -/
def c3task : Task :=
  { id := 20, boardId := 10, title := "T", description := "",
    status := "to-do", priority := "medium",
    assigneeId := none, reviewerId := none, dueDate := none }

/-- Store for the C3 scenario. -/
def c3store : Store := { users := [1, 2], boards := [c3board], tasks := [c3task], comments := [] }

/-- The ordinary partial-update body supplying only a new assignee id
(user 2, a current board member); the board key is omitted. -/
def c3patch : TaskPatchData :=
  { title := none, description := none, status := none, priority := none,
    board := none, assignee_id := some (some 2), reviewer_id := none, due_date := none }

/-- A task on the shared board whose assignee is currently user 2. -/
def c4task : Task :=
  { id := 20, boardId := 10, title := "T", description := "",
    status := "to-do", priority := "medium",
    assigneeId := some 2, reviewerId := none, dueDate := none }

/-- Store for the C4 scenario; no user has id 0. -/
def c4store : Store := { users := [1, 2], boards := [c3board], tasks := [c4task], comments := [] }

/-- The partial-update body supplying the explicit clear value 0. -/
def c4patch : TaskPatchData :=
  { title := none, description := none, status := none, priority := none,
    board := none, assignee_id := some (some 0), reviewer_id := none, due_date := none }

/-- Store for the C5 scenario: user 2 exists but is neither owner nor
member of board 10. -/
def c5store : Store := { users := [1, 2], boards := [c2board], tasks := [], comments := [] }

/-- A create body targeting board 10. -/
def c5data : TaskCreateData :=
  { board := 10, title := "New", description := "",
    status := none, priority := none,
    assignee_id := none, reviewer_id := none, due_date := none }

/-- A comment on task 20 authored by user 2, who is no longer a member
of board 10 (the member set was replaced). -/
def c6comment : Comment := { id := 30, taskId := 20, authorId := 2, content := "hi" }

/-- Store for the C6 scenario. -/
def c6store : Store :=
  { users := [1, 2], boards := [c2board], tasks := [c2task], comments := [c6comment] }

/-- A comment by user 1 on task 20 for the cascade scenario. -/
def c7comment : Comment := { id := 30, taskId := 20, authorId := 1, content := "x" }

/-- Store for the C7 witness: one board, one task, one comment. -/
def c7store : Store :=
  { users := [1, 2], boards := [c3board], tasks := [c3task], comments := [c7comment] }

/-- A create body with status "review". -/
def c9data : TaskCreateData :=
  { board := 10, title := "R", description := "",
    status := some "review", priority := none,
    assignee_id := none, reviewer_id := none, due_date := none }

/-- The task produced for `c9data` by user 1 on board 10. -/
def c9task : Task :=
  { id := 99, boardId := 10, title := "R", description := "",
    status := "review", priority := "medium",
    assigneeId := none, reviewerId := none, dueDate := none }

/-- Board with owner 1 and members 1, 2, 3. -/
def c10board : Board := { id := 10, title := "Wide", ownerId := 1, memberIds := [1, 2, 3] }

/-- Store for the C10 witness. -/
def c10store : Store := { users := [1, 2, 3], boards := [c10board], tasks := [], comments := [] }

/-! ## Helper lemmas -/

/-- Membership in a many-to-many `add` is membership in either list. -/
theorem mem_addMembers (cur new : List Nat) (x : Nat) :
    x ∈ addMembers cur new ↔ x ∈ cur ∨ x ∈ new := by
  simp [addMembers, List.mem_filter, List.elem_iff]
  tauto

/-- A filter that keeps the full length keeps every element. -/
theorem forall_of_filter_length {l : List Nat} {p : Nat → Bool}
    (h : (l.filter p).length = l.length) : ∀ x ∈ l, p x = true :=
  List.filter_length_eq_length.mp h

/-- A filter that drops some element shortens the list. -/
theorem filter_length_lt_of_not {l : List Nat} {p : Nat → Bool} {j : Nat}
    (hj : j ∈ l) (hp : p j = false) : (l.filter p).length < l.length := by
  have h1 : (l.filter p).length ≤ l.length := List.length_filter_le p l
  have h2 : (l.filter p).length ≠ l.length := by
    intro he
    have := List.filter_length_eq_length.mp he j hj
    simp [hp] at this
  omega

/-- When `validate_members` accepts a list, every id in it resolves. -/
theorem validate_members_ok_forall {s : Store} {ids r : List Nat}
    (h : validate_members s ids = .ok r) : ∀ i ∈ ids, s.userExists i = true := by
  unfold validate_members at h
  by_cases hemp : ids.isEmpty
  · intro i hi
    rw [List.isEmpty_iff] at hemp
    subst hemp
    cases hi
  · simp only [hemp, if_false] at h
    by_cases hlen : (ids.dedup.filter (fun i => s.userExists i)).length = ids.length
    · intro i hi
      have hle : ids.dedup.length ≤ ids.length := (List.dedup_sublist ids).length_le
      have hfl : (ids.dedup.filter (fun i => s.userExists i)).length ≤ ids.dedup.length :=
        List.length_filter_le _ _
      have : (ids.dedup.filter (fun i => s.userExists i)).length = ids.dedup.length := by omega
      exact forall_of_filter_length this i (List.mem_dedup.mpr hi)
    · simp only [ne_eq, hlen, not_false_eq_true, if_true] at h
      cases h

/-- `validate_members` accepts a duplicate-free list of resolving ids. -/
theorem validate_members_ok_of {s : Store} {ids : List Nat}
    (hnd : ids.Nodup) (hex : ∀ i ∈ ids, s.userExists i = true) :
    validate_members s ids = .ok ids := by
  unfold validate_members
  by_cases hemp : ids.isEmpty
  · simp [hemp]
  · have hded : ids.dedup = ids := List.dedup_eq_self.mpr hnd
    have hfil : ids.dedup.filter (fun i => s.userExists i) = ids := by
      rw [hded]
      exact List.filter_eq_self.mpr hex
    simp [hemp, hfil]

/-- A successful `BoardSerializer.create` yields a board owned by the
creator whose member set is the submitted ids together with the owner. -/
theorem boardSerializer_create_ok {s : Store} {newId : Nat} {title : String}
    {ids : List Nat} {owner : Nat} {s2 : Store} {b : Board}
    (h : boardSerializer_create s newId title ids owner = (s2, .ok b)) :
    b.ownerId = owner ∧ ∀ x, x ∈ b.memberIds ↔ x ∈ ids ∨ x = owner := by
  unfold boardSerializer_create at h
  by_cases hemp : ids.isEmpty
  · rw [List.isEmpty_iff] at hemp
    subst hemp
    simp only [List.isEmpty_nil, if_true] at h
    injection h with h1 h2
    injection h2 with h3
    subst h3
    exact ⟨rfl, by simp⟩
  · by_cases hlen : (ids.dedup.filter (fun i => s.userExists i)).length = ids.length
    · simp only [if_neg hemp, ne_eq, hlen, not_true, if_false] at h
      injection h with h1 h2
      injection h2 with h3
      subst h3
      refine ⟨rfl, fun x => ?_⟩
      have hall : ∀ i ∈ ids, s.userExists i = true := by
        intro i hi
        have hle : ids.dedup.length ≤ ids.length := (List.dedup_sublist ids).length_le
        have hfl : (ids.dedup.filter (fun i => s.userExists i)).length ≤ ids.dedup.length :=
          List.length_filter_le _ _
        have hq : (ids.dedup.filter (fun i => s.userExists i)).length = ids.dedup.length := by omega
        exact forall_of_filter_length hq i (List.mem_dedup.mpr hi)
      have hfil : ids.dedup.filter (fun i => s.userExists i) = ids.dedup :=
        List.filter_eq_self.mpr (fun a ha => hall a (List.mem_dedup.mp ha))
      simp only [mem_addMembers, hfil, List.mem_dedup, List.mem_singleton]
      tauto
    · simp only [if_neg hemp, ne_eq, hlen, not_false_iff, if_true] at h
      injection h with h1 h2
      exact Except.noConfusion h2

/-! ## C1 -/

/-- C1: for every board, the owner is in the member set immediately after
Create(title, memberIds, owner) and after every
ReplaceMembers(board, newMemberIds): the resulting member set is the
supplied ids united with the owner, whether or not the supplied list
contains the owner. -/
theorem owner_in_members_after_create_and_replace :
    (∀ s newId actor title memberIds b,
      (boardViewSet_create s newId actor title memberIds).board = some b →
      b.ownerId = actor ∧ actor ∈ b.memberIds ∧
        (∀ x, x ∈ b.memberIds ↔ x ∈ memberIds.getD [] ∨ x = actor)) ∧
    (∀ s actor bid b0 title newIds b,
      s.findBoard bid = some b0 →
      (boardViewSet_patch s actor bid title (some newIds)).board = some b →
      b.ownerId = b0.ownerId ∧ b0.ownerId ∈ b.memberIds ∧
        (∀ x, x ∈ b.memberIds ↔ x ∈ newIds ∨ x = b0.ownerId)) := by
  constructor
  · intro s newId actor title memberIds b h
    unfold boardViewSet_create at h
    have hok : boardSerializer_create s newId title (memberIds.getD []) actor =
        ((boardSerializer_create s newId title (memberIds.getD []) actor).1, .ok b) := by
      cases memberIds with
      | none =>
        rcases hc : boardSerializer_create s newId title [] actor with ⟨s2, r⟩
        cases r with
        | ok b2 => simp [hc] at h ⊢; exact h
        | error e => simp [hc] at h
      | some ids =>
        cases hv : validate_members s ids with
        | error e2 => simp [hv, Except.map] at h
        | ok v =>
          rcases hc : boardSerializer_create s newId title ids actor with ⟨s2, r⟩
          cases r with
          | ok b2 => simp [hv, Except.map, hc] at h ⊢; exact h
          | error e => simp [hv, Except.map, hc] at h
    obtain ⟨ho, hm⟩ := boardSerializer_create_ok hok
    exact ⟨ho, (hm actor).mpr (Or.inr rfl), hm⟩
  · intro s actor bid b0 title newIds b hfind h
    unfold boardViewSet_patch at h
    rw [hfind] at h
    dsimp only at h
    by_cases hmem : isBoardMember b0 actor
    · simp only [hmem, Bool.not_true, Bool.false_eq_true, if_false] at h
      cases hv : validate_members s newIds with
      | error e2 => rw [hv] at h; simp [Except.map] at h
      | ok v =>
        rw [hv] at h
        simp only [Except.map, Option.some.injEq] at h
        have hall : ∀ i ∈ newIds, s.userExists i = true := validate_members_ok_forall hv
        have hfil : newIds.dedup.filter (fun i => s.userExists i) = newIds.dedup :=
          List.filter_eq_self.mpr (fun a ha => hall a (List.mem_dedup.mp ha))
        subst h
        unfold boardSerializer_update
        refine ⟨rfl, ?_, ?_⟩
        · simp [mem_addMembers]
        · intro x
          simp only [mem_addMembers, hfil, List.mem_dedup, List.not_mem_nil,
            List.mem_singleton, false_or]
          tauto
    · rw [Bool.not_eq_true] at hmem
      rw [hmem] at h
      simp at h

/-- Witness for C1 at a concrete store: user 1 creates a board with
member list [2, 3] and ends up in the member set; member 2 replaces the
member set of board 10 with [3] and the owner is re-inserted. -/
theorem owner_in_members_witness :
    ((1 : Nat) ∈ c1created.memberIds ∧ (1 : Nat) ∈ c1patched.memberIds) := by
  constructor
  · exact (owner_in_members_after_create_and_replace.1 c1store 11 1 "Launch"
      (some [2, 3]) c1created (by decide)).2.1
  · exact (owner_in_members_after_create_and_replace.2 c1store 2 10 c1board0 none
      [3] c1patched (by decide) (by decide)).2.1

/-! ## C2 -/

/-- C2 counterexample: user 2 is authenticated but has no access to
board 10; comment id 5 does not resolve (the store holds no comments at
all), yet DELETE /tasks/20/comments/5/ answers 403, not the 404 the
claim requires for a resource id that does not resolve. -/
theorem delete_comment_403_on_missing_comment_for_nonmember :
    c2store.findComment 5 20 = none ∧
    (taskViewSet_delete_comment c2store 2 20 5).status = 403 ∧
    (taskViewSet_delete_comment c2store 2 20 5).status ≠ 404 := by decide

/-- C2 (amended): existence precedes permission for boards and for
tasks (a missing id gives 404 for every actor; an existing board with a
non-member actor gives 403).  For the comment sub-resource of
DELETE /tasks/{id}/comments/{cid}/ the board-membership check precedes
the comment existence check: a non-member receives 403 even when the
comment id does not resolve, a member receives 404 for a missing comment
and 403 for an existing comment authored by someone else. -/
theorem existence_before_permission_amended :
    (∀ s actor bid, s.findBoard bid = none → boardViewSet_retrieve s actor bid = 404) ∧
    (∀ s actor bid board, s.findBoard bid = some board →
      isBoardMember board actor = false → boardViewSet_retrieve s actor bid = 403) ∧
    (∀ s actor tid cid, s.findTask tid = none →
      (taskViewSet_delete_comment s actor tid cid).status = 404) ∧
    (∀ s actor tid cid task board, s.findTask tid = some task →
      s.findBoard task.boardId = some board → isBoardMember board actor = false →
      (taskViewSet_delete_comment s actor tid cid).status = 403) ∧
    (∀ s actor tid cid task board, s.findTask tid = some task →
      s.findBoard task.boardId = some board → isBoardMember board actor = true →
      s.findComment cid task.id = none →
      (taskViewSet_delete_comment s actor tid cid).status = 404) ∧
    (∀ s actor tid cid task board c, s.findTask tid = some task →
      s.findBoard task.boardId = some board → isBoardMember board actor = true →
      s.findComment cid task.id = some c → c.authorId ≠ actor →
      (taskViewSet_delete_comment s actor tid cid).status = 403) := by
  refine ⟨?_, ?_, ?_, ?_, ?_, ?_⟩
  · intro s actor bid h
    simp [boardViewSet_retrieve, h]
  · intro s actor bid board h hmem
    simp [boardViewSet_retrieve, h, hmem]
  · intro s actor tid cid h
    simp [taskViewSet_delete_comment, h]
  · intro s actor tid cid task board h1 h2 hmem
    simp [taskViewSet_delete_comment, h1, h2, hmem]
  · intro s actor tid cid task board h1 h2 hmem hcom
    simp [taskViewSet_delete_comment, h1, h2, hmem, hcom]
  · intro s actor tid cid task board c h1 h2 hmem hcom hne
    simp [taskViewSet_delete_comment, h1, h2, hmem, hcom, hne]

/-- Witness for the amended C2 ordering on the concrete store: the
non-member actor 2 gets 403 with the comment missing, and the owner 1
gets 404 for the missing comment. -/
theorem existence_before_permission_witness :
    (taskViewSet_delete_comment c2store 2 20 5).status = 403 ∧
    (taskViewSet_delete_comment c2store 1 20 5).status = 404 := by
  constructor
  · exact existence_before_permission_amended.2.2.2.1 c2store 2 20 5 c2task c2board
      (by decide) (by decide) (by decide)
  · exact existence_before_permission_amended.2.2.2.2.1 c2store 1 20 5 c2task c2board
      (by decide) (by decide) (by decide) (by decide)

/-! ## C3 -/

/-- C3 (code bug): user 2 exists and is a member of board 10, so per the
claim a partial update of task 20 that supplies `assignee_id = 2` must
re-validate membership and succeed.  Instead the cross-field validator
reads the absent board key and dereferences None, an uncaught
AttributeError: the request answers 500 and mutates nothing. -/
theorem patch_with_member_assignee_crashes :
    isBoardMember c3board 2 = true ∧
    c3store.userExists 2 = true ∧
    (taskViewSet_patch c3store 2 20 c3patch).status = 500 ∧
    (taskViewSet_patch c3store 2 20 c3patch).err = some .crash ∧
    (taskViewSet_patch c3store 2 20 c3patch).store = c3store := by decide

/-! ## C4 -/

/-- C4 (code bug): no user has id 0, so the explicit clear value
`assignee_id = 0` is rejected by `validate_assignee_id` with
"Assignee user does not exist" (400) before the clear branch of
`TaskSerializer.update` can run: the assignee of task 20 stays user 2
instead of being set absent. -/
theorem patch_assignee_zero_rejected :
    c4store.userExists 0 = false ∧
    (taskViewSet_patch c4store 2 20 c4patch).status = 400 ∧
    (taskViewSet_patch c4store 2 20 c4patch).err =
      some (.validation .assigneeNotExist) ∧
    (taskViewSet_patch c4store 2 20 c4patch).store = c4store ∧
    c4store.findTask 20 = some c4task ∧
    c4task.assigneeId = some 2 := by decide

/-! ## C5 -/

/-- C5 counterexample: user 2 is authenticated but neither owner nor
member of board 10; POST /tasks/ targeting that board fails, but with a
400 ValidationError on the board field, not the 403 PermissionError the
claim requires. -/
theorem nonmember_task_create_not_403 :
    (taskViewSet_create c5store 99 2 c5data).status = 400 ∧
    (taskViewSet_create c5store 99 2 c5data).status ≠ 403 ∧
    (taskViewSet_create c5store 99 2 c5data).err =
      some (.validation .notBoardMemberCreate) := by decide

/-- C5 (amended): a task create by an actor who is neither owner nor
member of the (existing) target board fails with the ValidationError
"You must be a member of the board to create a task", surfaced as HTTP
400 rather than 403, and no task is persisted. -/
theorem nonmember_task_create_400 (s : Store) (newId actor : Nat)
    (d : TaskCreateData) (board : Board)
    (hb : s.findBoard d.board = some board)
    (hmem : isBoardMember board actor = false) :
    (taskViewSet_create s newId actor d).status = 400 ∧
    (taskViewSet_create s newId actor d).err =
      some (.validation .notBoardMemberCreate) ∧
    (taskViewSet_create s newId actor d).store = s := by
  have hid : board.id = d.board := by
    have hp := List.find?_some hb
    simpa using hp
  have hres : resolve_board s d.board = .ok board := by
    simp [resolve_board, hb]
  have hvb : validate_board s actor board = .error .notBoardMemberCreate := by
    simp [validate_board, hid, hb, hmem]
  unfold taskViewSet_create taskCreate_is_valid
  rw [hres]
  dsimp only
  rw [hvb]
  dsimp only
  exact ⟨rfl, rfl, rfl⟩

/-- Witness for the amended C5 at the concrete store. -/
theorem nonmember_task_create_400_witness :
    (taskViewSet_create c5store 99 2 c5data).store = c5store :=
  (nonmember_task_create_400 c5store 99 2 c5data c2board (by decide) (by decide)).2.2

/-! ## C6 -/

/-- C6 counterexample: comment 30 on task 20 is authored by user 2, who
is no longer in the member set of board 10; although the actor equals the
author, DELETE /tasks/20/comments/30/ answers 403 at the board-membership
check and the comment survives, so delete does not succeed if and only if
the actor is the author. -/
theorem author_nonmember_comment_delete_403 :
    c6comment.authorId = 2 ∧
    c6store.findComment 30 20 = some c6comment ∧
    isBoardMember c2board 2 = false ∧
    (taskViewSet_delete_comment c6store 2 20 30).status = 403 ∧
    (taskViewSet_delete_comment c6store 2 20 30).status ≠ 204 ∧
    (taskViewSet_delete_comment c6store 2 20 30).store = c6store := by decide

/-- C6 (amended): comment deletion succeeds exactly when the actor is a
board member (owner or member) of the board of the task AND equals the
author of the comment; in particular a member or the owner who is not the
author receives 403, and so does an author who has been removed from the
board. -/
theorem comment_delete_requires_author_and_membership
    (s : Store) (actor tid cid : Nat) (task : Task) (board : Board) (c : Comment)
    (h1 : s.findTask tid = some task)
    (h2 : s.findBoard task.boardId = some board)
    (h3 : s.findComment cid task.id = some c) :
    ((taskViewSet_delete_comment s actor tid cid).status = 204 ↔
      (isBoardMember board actor = true ∧ c.authorId = actor)) ∧
    (isBoardMember board actor = true → c.authorId ≠ actor →
      (taskViewSet_delete_comment s actor tid cid).status = 403) := by
  unfold taskViewSet_delete_comment
  rw [h1]
  dsimp only
  rw [h2]
  dsimp only
  by_cases hmem : isBoardMember board actor
  · rw [h3]
    by_cases hauth : c.authorId = actor
    · simp [hmem, hauth]
    · simp [hmem, hauth]
  · rw [Bool.not_eq_true] at hmem
    simp [hmem]

/-- Witness for the amended C6: the board owner, user 1, is not the
author of comment 30 and receives 403. -/
theorem comment_delete_requires_author_witness :
    (taskViewSet_delete_comment c6store 1 20 30).status = 403 :=
  (comment_delete_requires_author_and_membership c6store 1 20 30 c2task c2board c6comment
    (by decide) (by decide) (by decide)).2 (by decide) (by decide)

/-! ## C7 -/

/-- C7: board deletion answers 204 exactly when the actor is the owner;
any non-owner (member or not) gets 403 and the store is untouched.  A
successful deletion cascades: the board no longer resolves, every task of
the board is gone from the store and its fetch answers 404 for every
actor, the comment listing of such a task answers 404 for every actor,
and every comment of those tasks is gone from the store.  (Task ids are
assumed unique, as database primary keys are.) -/
theorem board_delete_owner_only_and_cascades
    (s : Store) (actor bid : Nat) (board : Board)
    (hb : s.findBoard bid = some board)
    (huniq : ∀ t1 ∈ s.tasks, ∀ t2 ∈ s.tasks, t1.id = t2.id → t1 = t2) :
    ((boardViewSet_destroy s actor bid).status = 204 ↔ actor = board.ownerId) ∧
    (actor ≠ board.ownerId → (boardViewSet_destroy s actor bid).status = 403 ∧
      (boardViewSet_destroy s actor bid).store = s) ∧
    (actor = board.ownerId →
      (boardViewSet_destroy s actor bid).store.findBoard bid = none ∧
      (∀ t ∈ s.tasks, t.boardId = bid →
        (boardViewSet_destroy s actor bid).store.findTask t.id = none ∧
        (∀ u, taskViewSet_retrieve (boardViewSet_destroy s actor bid).store u t.id = 404) ∧
        (∀ u, (taskViewSet_comments_get (boardViewSet_destroy s actor bid).store u t.id).1 = 404)) ∧
      (∀ c ∈ s.comments, (∃ t ∈ s.tasks, t.boardId = bid ∧ c.taskId = t.id) →
        c ∉ (boardViewSet_destroy s actor bid).store.comments)) := by
  have hred : boardViewSet_destroy s actor bid =
      (if !(isBoardMember board actor) then { status := 403, store := s }
       else if board.ownerId ≠ actor then { status := 403, store := s }
       else { status := 204, store := s.deleteBoardCascade bid }) := by
    unfold boardViewSet_destroy
    rw [hb]
  by_cases hown : actor = board.ownerId
  · have hmem : isBoardMember board actor = true := by
      simp [isBoardMember, hown]
    have h204 : boardViewSet_destroy s actor bid =
        { status := 204, store := s.deleteBoardCascade bid } := by
      rw [hred, hmem]
      simp [hown]
    refine ⟨by rw [h204]; simp [hown], by intro hc; exact absurd hown hc, ?_⟩
    intro _
    rw [h204]
    refine ⟨?_, ?_, ?_⟩
    · apply List.find?_eq_none.mpr
      intro b2 hb2
      unfold Store.deleteBoardCascade at hb2
      simp only [List.mem_filter] at hb2
      simp only [decide_eq_true_eq] at hb2
      simp [hb2.2]
    · intro t ht htb
      have hfind : (s.deleteBoardCascade bid).findTask t.id = none := by
        apply List.find?_eq_none.mpr
        intro t2 ht2
        unfold Store.deleteBoardCascade at ht2
        simp only [List.mem_filter, decide_eq_true_eq] at ht2
        intro hbeq
        have hid : t2.id = t.id := by simpa using hbeq
        have : t2 = t := huniq t2 ht2.1 t ht hid
        subst this
        exact ht2.2 htb
      refine ⟨hfind, ?_, ?_⟩
      · intro u
        simp [taskViewSet_retrieve, hfind]
      · intro u
        simp [taskViewSet_comments_get, hfind]
    · intro c hc hex
      obtain ⟨t, ht, htb, hct⟩ := hex
      intro hmemc
      unfold Store.deleteBoardCascade at hmemc
      simp only [List.mem_filter] at hmemc
      have hmemf : t ∈ s.tasks.filter (fun t => t.boardId == bid) :=
        List.mem_filter.mpr ⟨ht, by simp [htb]⟩
      have hany : (s.tasks.filter (fun t => t.boardId == bid)).any
          (fun t2 => t2.id == c.taskId) = true :=
        List.any_eq_true.mpr ⟨t, hmemf, by simp [hct]⟩
      rw [hany] at hmemc
      simp at hmemc
  · have h403 : boardViewSet_destroy s actor bid = { status := 403, store := s } := by
      rw [hred]
      by_cases hmem : isBoardMember board actor
      · rw [hmem]
        have : board.ownerId ≠ actor := fun he => hown he.symm
        simp [this]
      · rw [Bool.not_eq_true] at hmem
        rw [hmem]
        simp
    refine ⟨by simp [h403, hown], by intro _; exact ⟨by simp [h403], by simp [h403]⟩, ?_⟩
    intro hc
    exact absurd hc hown

/-- Witness for C7: the owner deletes board 10; the board, its task 20
and comment 30 of the task are all gone, and fetches answer 404. -/
theorem board_delete_cascades_witness :
    (boardViewSet_destroy c7store 1 10).status = 204 ∧
    (boardViewSet_destroy c7store 1 10).store.findBoard 10 = none ∧
    (boardViewSet_destroy c7store 1 10).store.findTask 20 = none ∧
    (∀ u, taskViewSet_retrieve (boardViewSet_destroy c7store 1 10).store u 20 = 404) ∧
    c7comment ∉ (boardViewSet_destroy c7store 1 10).store.comments := by
  have h := board_delete_owner_only_and_cascades c7store 1 10 c3board (by decide)
    (by decide)
  have hc := h.2.2 (by decide)
  refine ⟨h.1.mpr (by decide), hc.1, ?_, ?_, ?_⟩
  · exact (hc.2.1 c3task (by decide) (by decide)).1
  · exact (hc.2.1 c3task (by decide) (by decide)).2.1
  · exact hc.2.2 c7comment (by decide) ⟨c3task, by decide, by decide, by decide⟩

/-! ## C8 -/

/-- C8: a board create whose member list contains an id that resolves to
no user fails with 400, the error names the unresolved distinct ids
(including the offending id), and the board store is unchanged — no
partial creation. -/
theorem board_create_invalid_member_rejected
    (s : Store) (newId actor : Nat) (title : String) (ids : List Nat) (j : Nat)
    (hj : j ∈ ids) (hnx : s.userExists j = false) :
    (boardViewSet_create s newId actor title (some ids)).status = 400 ∧
    (boardViewSet_create s newId actor title (some ids)).store = s ∧
    (boardViewSet_create s newId actor title (some ids)).err =
      some (.invalidUserIds (ids.dedup.filter (fun i => !(s.userExists i)))) ∧
    j ∈ ids.dedup.filter (fun i => !(s.userExists i)) := by
  have hne : ¬ids.isEmpty = true := by
    cases ids with
    | nil => cases hj
    | cons a t => simp
  have hlt : (ids.dedup.filter (fun i => s.userExists i)).length < ids.dedup.length :=
    filter_length_lt_of_not (List.mem_dedup.mpr hj) hnx
  have hle : ids.dedup.length ≤ ids.length := (List.dedup_sublist ids).length_le
  have hv : validate_members s ids =
      .error (.invalidUserIds (ids.dedup.filter (fun i => !(s.userExists i)))) := by
    unfold validate_members
    rw [if_neg hne]
    simp only
    rw [if_pos (by omega)]
  refine ⟨?_, ?_, ?_, ?_⟩
  · simp [boardViewSet_create, hv, Except.map]
  · simp [boardViewSet_create, hv, Except.map]
  · simp [boardViewSet_create, hv, Except.map]
  · simp [List.mem_filter, List.mem_dedup, hj, hnx]

/-- Witness for C8: creating a board with member list [2, 99] in a store
whose users are 1, 2, 3 answers 400 naming id 99 and leaves the store
unchanged. -/
theorem board_create_invalid_member_witness :
    (boardViewSet_create c1store 12 1 "Bad" (some [2, 99])).status = 400 ∧
    (boardViewSet_create c1store 12 1 "Bad" (some [2, 99])).store = c1store ∧
    (boardViewSet_create c1store 12 1 "Bad" (some [2, 99])).err =
      some (.invalidUserIds (([2, 99] : List Nat).dedup.filter
        (fun i => !(c1store.userExists i)))) ∧
    (99 : Nat) ∈ ([2, 99] : List Nat).dedup.filter (fun i => !(c1store.userExists i)) :=
  board_create_invalid_member_rejected c1store 12 1 "Bad" [2, 99] 99 (by decide) (by decide)

/-! ## C9 -/

/-- C9: a task created with status "review" stores "review" and both read
boundaries (`to_representation` and the PATCH response serializer) yield
"review"; moreover `to_representation` can never emit the internal
alternate spelling "reviewing". -/
theorem review_status_round_trip :
    (∀ s newId actor d t, d.status = some "review" →
      (taskViewSet_create s newId actor d).task = some t →
      t.status = "review" ∧
      to_representation_status t.status = "review" ∧
      taskPatchResponse_status t = "review") ∧
    (∀ st, to_representation_status st ≠ "reviewing") := by
  constructor
  · intro s newId actor d t hst h
    unfold taskViewSet_create at h
    cases hv : taskCreate_is_valid s actor d with
    | error e =>
      rw [hv] at h
      cases e with
      | validation e2 => simp at h
      | crash => simp at h
    | ok board =>
      rw [hv] at h
      dsimp only at h
      by_cases ha : truthy d.assignee_id <;> by_cases hr : truthy d.reviewer_id <;>
        · simp only [ha, hr, if_true, if_false, Option.some.injEq] at h
          subst h
          refine ⟨by simp [hst], by simp [hst, to_representation_status],
            by simp [hst, taskPatchResponse_status]⟩
  · intro st
    unfold to_representation_status
    by_cases h : st == "reviewing"
    · rw [if_pos h]
      decide
    · rw [if_neg h]
      intro he
      simp [he] at h

/-- Witness for C9: user 1 creates a "review" task on board 10 and both
read boundaries yield "review". -/
theorem review_status_round_trip_witness :
    c9task.status = "review" ∧
    to_representation_status c9task.status = "review" ∧
    taskPatchResponse_status c9task = "review" :=
  review_status_round_trip.1 c5store 99 1 c9data c9task (by decide) (by decide)

/-! ## C10 -/

/-- C10: PATCH on a board is permitted for any actor who is the owner or
any member (a non-member gets 403); a permitted actor replaces the whole
member set with the supplied ids plus the owner, so any non-owner member
can remove any other member or themselves, while the owner is always
re-inserted and can never be removed by this path. -/
theorem member_can_replace_members
    (s : Store) (actor bid : Nat) (board : Board) (newIds : List Nat)
    (hb : s.findBoard bid = some board) :
    (isBoardMember board actor = false →
      (boardViewSet_patch s actor bid none (some newIds)).status = 403) ∧
    (isBoardMember board actor = true → newIds.Nodup →
      (∀ i ∈ newIds, s.userExists i = true) →
      (boardViewSet_patch s actor bid none (some newIds)).status = 200 ∧
      (boardViewSet_patch s actor bid none (some newIds)).board =
        some (boardSerializer_update s board none (some newIds)) ∧
      board.ownerId ∈ (boardSerializer_update s board none (some newIds)).memberIds ∧
      (∀ x, x ∈ (boardSerializer_update s board none (some newIds)).memberIds ↔
        x = board.ownerId ∨ x ∈ newIds)) := by
  constructor
  · intro hmem
    unfold boardViewSet_patch
    rw [hb]
    dsimp only
    rw [hmem]
    simp
  · intro hmem hnd hex
    have hv : validate_members s newIds = .ok newIds := validate_members_ok_of hnd hex
    have h200 : boardViewSet_patch s actor bid none (some newIds) =
        { status := 200, board := some (boardSerializer_update s board none (some newIds)),
          err := none,
          store := s.setBoard (boardSerializer_update s board none (some newIds)) } := by
      unfold boardViewSet_patch
      rw [hb]
      dsimp only
      simp only [hmem, Bool.not_true, Bool.false_eq_true, if_false]
      rw [hv]
      rfl
    have hfil : newIds.dedup.filter (fun i => s.userExists i) = newIds.dedup :=
      List.filter_eq_self.mpr (fun a ha => hex a (List.mem_dedup.mp ha))
    have hmembers : ∀ x, x ∈ (boardSerializer_update s board none (some newIds)).memberIds ↔
        x = board.ownerId ∨ x ∈ newIds := by
      intro x
      unfold boardSerializer_update
      simp only [mem_addMembers, hfil, List.mem_dedup, List.not_mem_nil,
        List.mem_singleton, false_or]
    refine ⟨by rw [h200], by rw [h200], (hmembers board.ownerId).mpr (Or.inl rfl), hmembers⟩

/-- Witness for C10: user 2, a non-owner member of board 10, replaces the
member set with [3]: the request succeeds, the owner is still a member,
and member 2 has removed themselves. -/
theorem member_can_replace_members_witness :
    (boardViewSet_patch c10store 2 10 none (some [3])).status = 200 ∧
    (1 : Nat) ∈ (boardSerializer_update c10store c10board none (some [3])).memberIds ∧
    (2 : Nat) ∉ (boardSerializer_update c10store c10board none (some [3])).memberIds := by
  have h := (member_can_replace_members c10store 2 10 c10board [3] (by decide)).2
    (by decide) (by decide) (by decide)
  exact ⟨h.1, h.2.2.1, fun hx => absurd ((h.2.2.2 2).mp hx) (by decide)⟩

end KanMind
